import Mathlib

/-!
Shallow embedding of `src/plugins/modules/junos_pmtu.py` (module `junos_pmtu`).

The module performs Path MTU Discovery: `main` validates `max_size` /
`max_range`, sends one baseline ping (DF unset), then runs a step-halving
search loop of pings with DF set, and reports the discovered MTU.  `run_ping`
wraps the ping transport and parses its textual output for a packet-loss
summary line.

The external transport is modelled by an oracle `Nat → Int` giving the
`packet_loss` value returned by the i-th `run_ping` call (call 0 is the
baseline probe).  Python integers are unbounded, so sizes are `Int`; the
`step` variable starts at a value from `MAX_SIZE_CHOICES` (all nonnegative)
and is only ever floor-halved, so it is modelled as `Nat`.
-/

namespace JunosPmtu

/-- Constants from the top of `main` (junos_pmtu.py lines 245-250). -/
def INET_MIN_MTU_SIZE : Int := 68

def INET_MAX_MTU_SIZE : Int := 65496

def INET_HEADER_SIZE : Int := 20

def ICMP_HEADER_SIZE : Int := 8

def INET_AND_ICMP_HEADER_SIZE : Int := INET_HEADER_SIZE + ICMP_HEADER_SIZE

/-- `MAX_SIZE_CHOICES = [0] + list(map(lambda x: 2**x, range(1, 17)))`
(junos_pmtu.py line 252): 0 together with the powers of two 2^1 .. 2^16. -/
def MAX_SIZE_CHOICES : List Int :=
  0 :: (List.range 16).map (fun x => 2 ^ (x + 1))

/-- The `state` module option is restricted by the argument spec to the
choices `absent` / `present`; a validated parameter set carries one of them. -/
inductive PState where
  | absent
  | present
deriving DecidableEq, Repr

/-- The module parameters after Ansible argument parsing (`argument_spec`,
junos_pmtu.py lines 254-271).  Optional string/int options default to
`none` (Python `None`). -/
structure Params where
  count : Int
  dest : String
  df_bit : Bool
  rapid : Bool
  source : Option String
  interface : Option String
  ttl : Option Int
  size : Option Int
  interval : Option Int
  max_size : Int
  max_range : Int
  state : PState
deriving DecidableEq, Repr

/-- The argument tuple `run_ping` hands to `build_ping`
(junos_pmtu.py lines 347-357).  `size` is the payload byte count whose
decimal string the code passes. -/
structure PingCommand where
  dest : String
  count : Int
  size : Int
  interval : Option Int
  source : Option String
  ttl : Option Int
  interface : Option String
  df_bit : Bool
  rapid : Bool
deriving DecidableEq, Repr

/-- The fields of `params` that `run_ping` reads (junos_pmtu.py
lines 339-345). -/
structure ProbeArgs where
  count : Int
  dest : String
  rapid : Bool
  source : Option String
  ttl : Option Int
  interval : Option Int
  interface : Option String
deriving DecidableEq, Repr

def probeArgsOf (p : Params) : ProbeArgs :=
  { count := p.count, dest := p.dest, rapid := p.rapid, source := p.source,
    ttl := p.ttl, interval := p.interval, interface := p.interface }

/-- The `build_ping` call made inside `run_ping` with the given payload size
and DF flag (junos_pmtu.py lines 347-357). -/
def mkCommand (a : ProbeArgs) (size : Int) (df_bit : Bool) : PingCommand :=
  { dest := a.dest, count := a.count, size := size, interval := a.interval,
    source := a.source, ttl := a.ttl, interface := a.interface,
    df_bit := df_bit, rapid := a.rapid }

/-- The `results` dict `main` builds and returns through
`exit_json` / `fail_json`.  The code only ever writes the keys
`changed`, `failed`, `inet_mtu`, `dest` and `msg` (junos_pmtu.py
lines 285, 291, 312-317, 326-330); `source` and `interface` model the
lookup of dict keys that are never written, hence stay `none`. -/
structure RunResult where
  changed : Bool
  failed : Bool
  inet_mtu : Int
  dest : String
  msg : Option String
  source : Option String
  interface : Option String
deriving DecidableEq, Repr

/-- One `run_ping` call as observed by `main`: the command dispatched, the
packet size the probe covers (payload + 28 header bytes) and the
`packet_loss` the transport reported. -/
structure ProbeEvent where
  cmd : PingCommand
  packetSize : Int
  loss : Int
deriving DecidableEq, Repr

/-- Configuration failures raised before any probing. -/
inductive ConfigError where
  | badMaxRange
  | badMaxSize (msg : String)
deriving DecidableEq, Repr

/-- The clamp at the top of the search loop (junos_pmtu.py lines 301-304):
`if test_size < INET_MIN_MTU_SIZE: test_size = INET_MIN_MTU_SIZE
elif test_size > max_size: test_size = max_size`. -/
def clampTest (max_size t : Int) : Int :=
  if t < INET_MIN_MTU_SIZE then INET_MIN_MTU_SIZE
  else if t > max_size then max_size
  else t

/-- `step = step // 2 if step >= 2 else 0` (junos_pmtu.py line 306). -/
def halveStep (step : Nat) : Nat :=
  if 2 ≤ step then step / 2 else 0

lemma halveStep_eq (step : Nat) : halveStep step = step / 2 := by
  unfold halveStep
  split_ifs with h
  · rfl
  · omega

/-- The `while True` search loop of `main` (junos_pmtu.py lines 300-322),
as a recursion on `step`.  Returns the final `results` together with the
list of probe events the loop issued, in order.  `idx` numbers the
`run_ping` calls for the oracle. -/
def searchLoop (a : ProbeArgs) (max_size : Int) (oracle : Nat → Int)
    (idx : Nat) (test_size : Int) (step : Nat) (res : RunResult) :
    RunResult × List ProbeEvent :=
  let t := clampTest max_size test_size
  let step2 := halveStep step
  let loss := oracle idx
  let ev : ProbeEvent :=
    { cmd := mkCommand a (t - INET_AND_ICMP_HEADER_SIZE) true,
      packetSize := t, loss := loss }
  if loss < 100 ∧ t = max_size then
    ({ res with failed := false, inet_mtu := t }, [ev])
  else
    let res2 := if loss < 100 then { res with failed := false, inet_mtu := t } else res
    let t2 := if loss < 100 then t + (step2 : Int) else t - (step2 : Int)
    if step2 < 1 then (res2, [ev])
    else
      let rec2 := searchLoop a max_size oracle (idx + 1) t2 step2 res2
      (rec2.1, ev :: rec2.2)
termination_by step
decreasing_by
  simp only [step2, halveStep_eq] at *
  omega

/-- `min_test_size = test_size - (max_range - 1)` with `test_size = max_size`,
then raised to `INET_MIN_MTU_SIZE` (junos_pmtu.py lines 296-298). -/
def min_test_size (max_size max_range : Int) : Int :=
  let m := max_size - (max_range - 1)
  if m < INET_MIN_MTU_SIZE then INET_MIN_MTU_SIZE else m

/-- The `fail_json` message of junos_pmtu.py lines 326-329, from the
adjacent f-string literals. -/
def pmtuTooSmallMsg (dest : String) (minTest max_size max_range : Int) : String :=
  "The MTU of the path to " ++ dest ++ " is less than " ++
  "the minimum tested size(" ++ toString minTest ++ "). Try " ++
  "decreasing max_size(" ++ toString max_size ++ ") or increasing " ++
  "max_range(" ++ toString max_range ++ ")."

/-- The `exit_json` message when the baseline probe fails
(junos_pmtu.py line 291). -/
def basicConnMsg (dest : String) : String :=
  "Basic connectivity to " ++ dest ++ " failed."

/-- `results = {"changed": False, "failed": True, "inet_mtu": 0, "dest": dest}`
(junos_pmtu.py line 285); the remaining keys are never written. -/
def initResults (dest : String) : RunResult :=
  { changed := false, failed := true, inet_mtu := 0, dest := dest,
    msg := none, source := none, interface := none }

/-- The baseline reachability probe: payload
`INET_MIN_MTU_SIZE - INET_AND_ICMP_HEADER_SIZE = 40`, DF bit unset
(junos_pmtu.py lines 287-289). -/
def baselineEvent (a : ProbeArgs) (loss : Int) : ProbeEvent :=
  { cmd := mkCommand a (INET_MIN_MTU_SIZE - INET_AND_ICMP_HEADER_SIZE) false,
    packetSize := INET_MIN_MTU_SIZE, loss := loss }

/-- `main` of junos_pmtu.py (lines 244-333).  Validation order follows the
code: `AnsibleModule(argument_spec)` (line 273) rejects a `max_range`
outside `MAX_SIZE_CHOICES` before the explicit `max_size` bounds check
(lines 279-283); both precede every probe.  On success returns the final
results together with the full ordered probe trace. -/
def main (p : Params) (oracle : Nat → Int) :
    Except ConfigError (RunResult × List ProbeEvent) :=
  if p.max_range ∈ MAX_SIZE_CHOICES then
    if p.max_size < INET_MIN_MTU_SIZE ∨ p.max_size > INET_MAX_MTU_SIZE then
      .error (.badMaxSize
        ("The value of the max_size option(" ++ toString p.max_size ++
         ") must be between " ++ toString INET_MIN_MTU_SIZE ++ " and " ++
         toString INET_MAX_MTU_SIZE ++ "."))
    else
      let a := probeArgsOf p
      let blEv := baselineEvent a (oracle 0)
      if oracle 0 = 100 then
        .ok ({ initResults p.dest with msg := some (basicConnMsg p.dest) }, [blEv])
      else
        let out := searchLoop a p.max_size oracle 1 p.max_size p.max_range.toNat
          (initResults p.dest)
        let r := out.1
        if r.inet_mtu = 0 then
          let msg2 := pmtuTooSmallMsg p.dest
            (min_test_size p.max_size p.max_range) p.max_size p.max_range
          .ok ({ r with failed := true, msg := some msg2 }, blEv :: out.2)
        else
          .ok (r, blEv :: out.2)
  else
    .error .badMaxRange

/-- The size the final `inet_mtu` tracks: fold over the probe events keeping
the packet size of the most recent probe with `loss < 100`. -/
def lastSuccessSize (es : List ProbeEvent) (d : Int) : Int :=
  es.foldl (fun acc e => if e.loss < 100 then e.packetSize else acc) d

lemma clampTest_ge (max_size t : Int) (h : INET_MIN_MTU_SIZE ≤ max_size) :
    INET_MIN_MTU_SIZE ≤ clampTest max_size t := by
  simp only [clampTest, INET_MIN_MTU_SIZE] at *
  split_ifs <;> omega

lemma clampTest_le (max_size t : Int) (h : INET_MIN_MTU_SIZE ≤ max_size) :
    clampTest max_size t ≤ max_size := by
  simp only [clampTest, INET_MIN_MTU_SIZE] at *
  split_ifs <;> omega

lemma clampTest_self (max_size : Int) (h : INET_MIN_MTU_SIZE ≤ max_size) :
    clampTest max_size max_size = max_size := by
  simp only [clampTest, INET_MIN_MTU_SIZE] at *
  split_ifs <;> omega

/-- The probe event the loop emits on a pass whose clamped test size is `t`. -/
def loopEvent (a : ProbeArgs) (t loss : Int) : ProbeEvent :=
  { cmd := mkCommand a (t - INET_AND_ICMP_HEADER_SIZE) true,
    packetSize := t, loss := loss }

/-- Zeta-free one-pass unfolding of `searchLoop`, convenient for rewriting. -/
lemma searchLoop_eq (a : ProbeArgs) (max_size : Int) (o : Nat → Int)
    (idx : Nat) (test_size : Int) (step : Nat) (res : RunResult) :
    searchLoop a max_size o idx test_size step res =
      if o idx < 100 ∧ clampTest max_size test_size = max_size then
        ({ res with failed := false, inet_mtu := clampTest max_size test_size },
         [loopEvent a (clampTest max_size test_size) (o idx)])
      else if halveStep step < 1 then
        ((if o idx < 100 then
            { res with failed := false, inet_mtu := clampTest max_size test_size }
          else res),
         [loopEvent a (clampTest max_size test_size) (o idx)])
      else
        ((searchLoop a max_size o (idx + 1)
            (if o idx < 100 then
              clampTest max_size test_size + (halveStep step : Int)
             else clampTest max_size test_size - (halveStep step : Int))
            (halveStep step)
            (if o idx < 100 then
              { res with failed := false, inet_mtu := clampTest max_size test_size }
             else res)).1,
         loopEvent a (clampTest max_size test_size) (o idx) ::
           (searchLoop a max_size o (idx + 1)
             (if o idx < 100 then
               clampTest max_size test_size + (halveStep step : Int)
              else clampTest max_size test_size - (halveStep step : Int))
             (halveStep step)
             (if o idx < 100 then
               { res with failed := false, inet_mtu := clampTest max_size test_size }
              else res)).2) := by
  rw [searchLoop]
  by_cases h1 : o idx < 100 ∧ clampTest max_size test_size = max_size
  · simp only [if_pos h1]
    rfl
  · simp only [if_neg h1]
    by_cases h2 : halveStep step < 1
    · simp only [if_pos h2]
      by_cases h3 : o idx < 100 <;>
        simp only [if_pos, if_neg, h3, if_true, if_false] <;> rfl
    · simp only [if_neg h2]
      by_cases h3 : o idx < 100 <;>
        simp only [if_pos, if_neg, h3, if_true, if_false] <;> rfl

/-- The search loop issues at most `log2 step + 1` probes: `step` is halved
(with floor, to 0) on every pass and the loop stops once it is below 1. -/
lemma searchLoop_length_le (a : ProbeArgs) (max_size : Int) (o : Nat → Int) :
    ∀ step idx t res,
      ((searchLoop a max_size o idx t step res).2).length ≤ Nat.log 2 step + 1 := by
  intro step
  induction step using Nat.strong_induction_on with
  | _ step ih =>
    intro idx t res
    rw [searchLoop_eq]
    by_cases h1 : o idx < 100 ∧ clampTest max_size t = max_size
    · simp [h1]
    · rw [if_neg h1]
      by_cases h2 : halveStep step < 1
      · simp [h2]
      · rw [if_neg h2]
        have hs : 2 ≤ step := by
          by_contra hlt
          rw [halveStep_eq] at h2
          omega
        have hlog : Nat.log 2 (step / 2) = Nat.log 2 step - 1 := Nat.log_div_base 2 step
        have hpos : 0 < Nat.log 2 step := Nat.log_pos (by norm_num) hs
        have hrec := ih (halveStep step) (by rw [halveStep_eq]; omega) (idx + 1)
          (if o idx < 100 then
            clampTest max_size t + (halveStep step : Int)
           else clampTest max_size t - (halveStep step : Int))
          (if o idx < 100 then
            { res with failed := false, inet_mtu := clampTest max_size t }
           else res)
        rw [halveStep_eq] at hrec
        simp only [List.length_cons, halveStep_eq]
        omega

/-- Every probe the search loop issues is at a clamped size in
`[INET_MIN_MTU_SIZE, max_size]`, carries payload `packetSize - 28` and has
the DF bit set. -/
lemma searchLoop_events (a : ProbeArgs) (max_size : Int) (o : Nat → Int)
    (hm : INET_MIN_MTU_SIZE ≤ max_size) :
    ∀ step idx t res, ∀ e ∈ (searchLoop a max_size o idx t step res).2,
      INET_MIN_MTU_SIZE ≤ e.packetSize ∧ e.packetSize ≤ max_size ∧
      e.cmd = mkCommand a (e.packetSize - INET_AND_ICMP_HEADER_SIZE) true := by
  intro step
  induction step using Nat.strong_induction_on with
  | _ step ih =>
    intro idx t res e he
    have hev : ∀ ls, e = loopEvent a (clampTest max_size t) ls →
        INET_MIN_MTU_SIZE ≤ e.packetSize ∧ e.packetSize ≤ max_size ∧
        e.cmd = mkCommand a (e.packetSize - INET_AND_ICMP_HEADER_SIZE) true := by
      intro ls hls
      subst hls
      exact ⟨clampTest_ge max_size t hm, clampTest_le max_size t hm, rfl⟩
    rw [searchLoop_eq] at he
    by_cases h1 : o idx < 100 ∧ clampTest max_size t = max_size
    · rw [if_pos h1] at he
      simp only [List.mem_singleton] at he
      exact hev (o idx) he
    · rw [if_neg h1] at he
      by_cases h2 : halveStep step < 1
      · rw [if_pos h2] at he
        simp only [List.mem_singleton] at he
        exact hev (o idx) he
      · rw [if_neg h2] at he
        have hs : 2 ≤ step := by
          by_contra hlt
          rw [halveStep_eq] at h2
          omega
        simp only [List.mem_cons] at he
        rcases he with he | he
        · exact hev (o idx) he
        · exact ih (halveStep step) (by rw [halveStep_eq]; omega) _ _ _ e he

/-- The final `inet_mtu` out of the loop is the packet size of the most
recent probe with `loss < 100`, falling back to the incoming value. -/
lemma searchLoop_inet (a : ProbeArgs) (max_size : Int) (o : Nat → Int) :
    ∀ step idx t res,
      (searchLoop a max_size o idx t step res).1.inet_mtu =
        lastSuccessSize (searchLoop a max_size o idx t step res).2 res.inet_mtu := by
  intro step
  induction step using Nat.strong_induction_on with
  | _ step ih =>
    intro idx t res
    rw [searchLoop_eq]
    by_cases h1 : o idx < 100 ∧ clampTest max_size t = max_size
    · rw [if_pos h1]
      simp [lastSuccessSize, loopEvent, h1.1]
    · rw [if_neg h1]
      by_cases h2 : halveStep step < 1
      · rw [if_pos h2]
        by_cases h3 : o idx < 100 <;>
          simp [lastSuccessSize, loopEvent, h3]
      · rw [if_neg h2]
        have hrec := ih (halveStep step) (by rw [halveStep_eq] at h2 ⊢; omega) (idx + 1)
          (if o idx < 100 then
            clampTest max_size t + (halveStep step : Int)
           else clampTest max_size t - (halveStep step : Int))
          (if o idx < 100 then
            { res with failed := false, inet_mtu := clampTest max_size t }
           else res)
        by_cases h3 : o idx < 100
        · simp only [if_pos h3] at hrec ⊢
          simp only [lastSuccessSize, List.foldl_cons, loopEvent, if_pos h3] at hrec ⊢
          exact hrec
        · simp only [if_neg h3] at hrec ⊢
          simp only [lastSuccessSize, List.foldl_cons, loopEvent, if_neg h3] at hrec ⊢
          exact hrec

/-- If every remaining probe reports loss 100, the loop leaves `results`
untouched: no assignment to `failed` / `inet_mtu` ever happens. -/
lemma searchLoop_all_fail (a : ProbeArgs) (max_size : Int) (o : Nat → Int) :
    ∀ step idx t res, (∀ j, idx ≤ j → o j = 100) →
      (searchLoop a max_size o idx t step res).1 = res := by
  intro step
  induction step using Nat.strong_induction_on with
  | _ step ih =>
    intro idx t res hfail
    have hli : ¬ o idx < 100 := by
      have := hfail idx (Nat.le_refl idx)
      omega
    rw [searchLoop_eq]
    rw [if_neg (by tauto)]
    by_cases h2 : halveStep step < 1
    · rw [if_pos h2, if_neg hli]
    · rw [if_neg h2]
      simp only [if_neg hli]
      exact ih (halveStep step) (by rw [halveStep_eq] at h2 ⊢; omega) (idx + 1) _ res
        (fun j hj => hfail j (by omega))

/-- Zeta-free unfolding of `main` once validation has passed. -/
lemma main_eq_valid (p : Params) (o : Nat → Int)
    (hr : p.max_range ∈ MAX_SIZE_CHOICES)
    (hb : ¬ (p.max_size < INET_MIN_MTU_SIZE ∨ p.max_size > INET_MAX_MTU_SIZE)) :
    main p o =
      if o 0 = 100 then
        .ok ({ initResults p.dest with msg := some (basicConnMsg p.dest) },
             [baselineEvent (probeArgsOf p) (o 0)])
      else if (searchLoop (probeArgsOf p) p.max_size o 1 p.max_size
                 p.max_range.toNat (initResults p.dest)).1.inet_mtu = 0 then
        .ok ({ (searchLoop (probeArgsOf p) p.max_size o 1 p.max_size
                 p.max_range.toNat (initResults p.dest)).1 with
               failed := true,
               msg := some (pmtuTooSmallMsg p.dest
                 (min_test_size p.max_size p.max_range) p.max_size p.max_range) },
             baselineEvent (probeArgsOf p) (o 0) ::
               (searchLoop (probeArgsOf p) p.max_size o 1 p.max_size
                 p.max_range.toNat (initResults p.dest)).2)
      else
        .ok ((searchLoop (probeArgsOf p) p.max_size o 1 p.max_size
                p.max_range.toNat (initResults p.dest)).1,
             baselineEvent (probeArgsOf p) (o 0) ::
               (searchLoop (probeArgsOf p) p.max_size o 1 p.max_size
                 p.max_range.toNat (initResults p.dest)).2) := by
  unfold main
  rw [if_pos hr, if_neg hb]

/-- `main` returns a configuration error exactly when `max_size` is out of
bounds or `max_range` is not an allowed choice. -/
lemma main_error_characterization (p : Params) (o : Nat → Int) :
    (∃ e, main p o = .error e) ↔
      (p.max_size < INET_MIN_MTU_SIZE ∨ INET_MAX_MTU_SIZE < p.max_size ∨
        p.max_range ∉ MAX_SIZE_CHOICES) := by
  by_cases hr : p.max_range ∈ MAX_SIZE_CHOICES
  · by_cases hb : p.max_size < INET_MIN_MTU_SIZE ∨ p.max_size > INET_MAX_MTU_SIZE
    · constructor
      · intro _
        tauto
      · intro _
        unfold main
        rw [if_pos hr, if_pos hb]
        exact ⟨_, rfl⟩
    · rw [main_eq_valid p o hr hb]
      constructor
      · rintro ⟨e, he⟩
        split_ifs at he
      · intro h
        exfalso
        tauto
  · constructor
    · intro _
      tauto
    · intro _
      unfold main
      rw [if_neg hr]
      exact ⟨_, rfl⟩

/-- The allowed `max_range` values are exactly 0 and the powers of two
2^1 .. 2^16. -/
lemma mem_MAX_SIZE_CHOICES_iff (m : Int) :
    m ∈ MAX_SIZE_CHOICES ↔ m = 0 ∨ ∃ k, 1 ≤ k ∧ k ≤ 16 ∧ m = 2 ^ k := by
  constructor
  · intro h
    simp only [MAX_SIZE_CHOICES, List.mem_cons, List.mem_map, List.mem_range] at h
    rcases h with h | ⟨x, hx, rfl⟩
    · exact Or.inl h
    · exact Or.inr ⟨x + 1, by omega, by omega, rfl⟩
  · rintro (rfl | ⟨k, hk1, hk16, rfl⟩)
    · simp [MAX_SIZE_CHOICES]
    · simp only [MAX_SIZE_CHOICES, List.mem_cons, List.mem_map, List.mem_range]
      refine Or.inr ⟨k - 1, by omega, ?_⟩
      congr 1
      omega

lemma toNat_two_pow (k : Nat) : ((2 : Int) ^ k).toNat = 2 ^ k := by
  have h : ((2 : Int) ^ k) = (((2 ^ k : Nat) : Int)) := by
    push_cast
    ring
  rw [h, Int.toNat_natCast]

lemma string_regroup (X : String) :
    " is less than " ++ ("the minimum tested size(" ++ X) =
      " is " ++ ("less than the minimum tested size" ++ ("(" ++ X)) := by
  have h1 : (" is less than " ++ "the minimum tested size(" : String) =
      (" is " ++ "less than the minimum tested size") ++ "(" := by decide
  calc (" is less than " : String) ++ ("the minimum tested size(" ++ X)
      = (" is less than " ++ "the minimum tested size(") ++ X := by
        rw [String.append_assoc]
    _ = ((" is " ++ "less than the minimum tested size") ++ "(") ++ X := by
        rw [h1]
    _ = (" is " ++ "less than the minimum tested size") ++ ("(" ++ X) := by
        rw [String.append_assoc]
    _ = " is " ++ ("less than the minimum tested size" ++ ("(" ++ X)) := by
        rw [String.append_assoc]

/-- C7: `main` raises a configuration error exactly for `max_size` outside
`[68, 65496]` or `max_range` not in `{0} ∪ {2^1, ..., 2^16}`; when it does,
the error does not depend on the probe oracle, i.e. it is raised before any
probe is issued. -/
theorem config_validation_eager (p : Params) (o : Nat → Int) :
    ((∃ e, main p o = .error e) ↔
      (p.max_size < 68 ∨ 65496 < p.max_size ∨ p.max_range ∉ MAX_SIZE_CHOICES))
    ∧ (p.max_range ∈ MAX_SIZE_CHOICES ↔
        p.max_range = 0 ∨ ∃ k, 1 ≤ k ∧ k ≤ 16 ∧ p.max_range = 2 ^ k)
    ∧ (∀ e, main p o = .error e → ∀ o2, main p o2 = .error e) := by
  refine ⟨?_, mem_MAX_SIZE_CHOICES_iff p.max_range, ?_⟩
  · have h := main_error_characterization p o
    simpa [INET_MIN_MTU_SIZE, INET_MAX_MTU_SIZE] using h
  · intro e he o2
    by_cases hr : p.max_range ∈ MAX_SIZE_CHOICES
    · by_cases hb : p.max_size < INET_MIN_MTU_SIZE ∨ p.max_size > INET_MAX_MTU_SIZE
      · unfold main at he ⊢
        rw [if_pos hr, if_pos hb] at he ⊢
        exact he
      · rw [main_eq_valid p o hr hb] at he
        split_ifs at he
    · unfold main at he ⊢
      rw [if_neg hr] at he ⊢
      exact he

/-- C4: a baseline probe with 100% loss makes `main` return
`failed = true`, `inet_mtu = 0` with the basic-connectivity diagnostic,
after exactly one probe (payload 40, DF unset); the search loop never runs. -/
theorem baseline_failure_fails_fast (p : Params) (o : Nat → Int)
    (h1 : (68 : Int) ≤ p.max_size) (h2 : p.max_size ≤ 65496)
    (hr : p.max_range ∈ MAX_SIZE_CHOICES) (hb : o 0 = 100) :
    main p o = .ok
      ({ changed := false, failed := true, inet_mtu := 0, dest := p.dest,
         msg := some (basicConnMsg p.dest), source := none, interface := none },
       [{ cmd := mkCommand (probeArgsOf p) 40 false, packetSize := 68,
          loss := o 0 }]) := by
  have hbv : ¬ (p.max_size < INET_MIN_MTU_SIZE ∨ p.max_size > INET_MAX_MTU_SIZE) := by
    simp only [INET_MIN_MTU_SIZE, INET_MAX_MTU_SIZE, not_or, not_lt]
    omega
  rw [main_eq_valid p o hr hbv, if_pos hb]
  rfl

/-- C2: if the baseline probe and every search probe report loss below 100,
`main` stops at the very first search probe (two probes in total) with
`failed = false` and `inet_mtu = max_size`. -/
theorem all_success_returns_max (p : Params) (o : Nat → Int)
    (h1 : (68 : Int) ≤ p.max_size) (h2 : p.max_size ≤ 65496)
    (hr : p.max_range ∈ MAX_SIZE_CHOICES)
    (hb : o 0 < 100) (hs : ∀ i, 1 ≤ i → o i < 100) :
    main p o = .ok
      ({ changed := false, failed := false, inet_mtu := p.max_size, dest := p.dest,
         msg := none, source := none, interface := none },
       [baselineEvent (probeArgsOf p) (o 0),
        loopEvent (probeArgsOf p) p.max_size (o 1)]) := by
  have hbv : ¬ (p.max_size < INET_MIN_MTU_SIZE ∨ p.max_size > INET_MAX_MTU_SIZE) := by
    simp only [INET_MIN_MTU_SIZE, INET_MAX_MTU_SIZE, not_or, not_lt]
    omega
  have hb100 : ¬ o 0 = 100 := by omega
  rw [main_eq_valid p o hr hbv, if_neg hb100]
  have hclamp : clampTest p.max_size p.max_size = p.max_size :=
    clampTest_self _ (by simpa [INET_MIN_MTU_SIZE] using h1)
  have hloop : searchLoop (probeArgsOf p) p.max_size o 1 p.max_size
      p.max_range.toNat (initResults p.dest) =
      ({ initResults p.dest with failed := false, inet_mtu := p.max_size },
       [loopEvent (probeArgsOf p) p.max_size (o 1)]) := by
    rw [searchLoop_eq, if_pos ⟨hs 1 (le_refl 1), hclamp⟩, hclamp]
  rw [hloop]
  have hne : ¬ (({ initResults p.dest with failed := false, inet_mtu := p.max_size },
      [loopEvent (probeArgsOf p) p.max_size (o 1)]).1.inet_mtu = 0) := by
    show ¬ p.max_size = 0
    omega
  rw [if_neg hne]
  rfl

/-- C3: for `max_range = 2^k` (k in [1,16]) and `max_size` in bounds,
`main` terminates (it is a total function returning `.ok`) and issues at
most `k + 2 = ceil(log2 max_range) + 2` probes, whatever the outcomes. -/
theorem probe_count_bound (p : Params) (o : Nat → Int) (k : Nat)
    (h1 : (68 : Int) ≤ p.max_size) (h2 : p.max_size ≤ 65496)
    (hk1 : 1 ≤ k) (hk16 : k ≤ 16) (hkr : p.max_range = 2 ^ k) :
    ∃ r tr, main p o = .ok (r, tr) ∧ tr.length ≤ k + 2 := by
  have hr : p.max_range ∈ MAX_SIZE_CHOICES :=
    (mem_MAX_SIZE_CHOICES_iff _).2 (Or.inr ⟨k, hk1, hk16, hkr⟩)
  have hbv : ¬ (p.max_size < INET_MIN_MTU_SIZE ∨ p.max_size > INET_MAX_MTU_SIZE) := by
    simp only [INET_MIN_MTU_SIZE, INET_MAX_MTU_SIZE, not_or, not_lt]
    omega
  rw [main_eq_valid p o hr hbv]
  have hlen := searchLoop_length_le (probeArgsOf p) p.max_size o
    p.max_range.toNat 1 p.max_size (initResults p.dest)
  have hstep : p.max_range.toNat = 2 ^ k := by
    rw [hkr, toNat_two_pow]
  have hlog : Nat.log 2 p.max_range.toNat = k := by
    rw [hstep]
    exact Nat.log_pow (b := 2) (by norm_num) k
  by_cases hb0 : o 0 = 100
  · rw [if_pos hb0]
    exact ⟨_, _, rfl, by simp⟩
  · rw [if_neg hb0]
    split_ifs with h0
    · exact ⟨_, _, rfl, by simp only [List.length_cons]; omega⟩
    · exact ⟨_, _, rfl, by simp only [List.length_cons]; omega⟩

/-- C5: baseline passes but every search probe reports loss 100: `main`
fails with `inet_mtu = 0` and the `PathMtuTooSmall` diagnostic, which names
`dest`, `min_test_size = max 68 (max_size - max_range + 1)`, `max_size` and
`max_range`, and contains the phrase "less than the minimum tested size". -/
theorem all_loss_reports_too_small (p : Params) (o : Nat → Int)
    (h1 : (68 : Int) ≤ p.max_size) (h2 : p.max_size ≤ 65496)
    (hr : p.max_range ∈ MAX_SIZE_CHOICES)
    (hb : o 0 ≠ 100) (hf : ∀ i, 1 ≤ i → o i = 100) :
    (∃ tr, main p o = .ok
      ({ changed := false, failed := true, inet_mtu := 0, dest := p.dest,
         msg := some (pmtuTooSmallMsg p.dest
           (min_test_size p.max_size p.max_range) p.max_size p.max_range),
         source := none, interface := none }, tr))
    ∧ min_test_size p.max_size p.max_range = max 68 (p.max_size - p.max_range + 1)
    ∧ ∃ pre post,
        pmtuTooSmallMsg p.dest (min_test_size p.max_size p.max_range)
            p.max_size p.max_range =
          pre ++ ("less than the minimum tested size" ++ post) := by
  refine ⟨?_, ?_, ?_⟩
  · have hbv : ¬ (p.max_size < INET_MIN_MTU_SIZE ∨ p.max_size > INET_MAX_MTU_SIZE) := by
      simp only [INET_MIN_MTU_SIZE, INET_MAX_MTU_SIZE, not_or, not_lt]
      omega
    rw [main_eq_valid p o hr hbv, if_neg hb]
    have hres := searchLoop_all_fail (probeArgsOf p) p.max_size o
      p.max_range.toNat 1 p.max_size (initResults p.dest) (fun j hj => hf j hj)
    rw [hres, if_pos (show (initResults p.dest).inet_mtu = 0 from rfl)]
    exact ⟨_, rfl⟩
  · simp only [min_test_size, INET_MIN_MTU_SIZE]
    split_ifs <;> omega
  · refine ⟨"The MTU of the path to " ++ p.dest ++ " is ",
      "(" ++ (toString (min_test_size p.max_size p.max_range) ++ ("). Try " ++
        ("decreasing max_size(" ++ (toString p.max_size ++ (") or increasing " ++
          ("max_range(" ++ (toString p.max_range ++ ")."))))))), ?_⟩
    unfold pmtuTooSmallMsg
    simp only [String.append_assoc]
    rw [string_regroup]

/-- Case analysis of a successful `main` run: validation passed, and the
outcome is either the baseline-failure exit or a search-loop run. -/
lemma main_ok_cases (p : Params) (o : Nat → Int) (r : RunResult)
    (tr : List ProbeEvent) (h : main p o = .ok (r, tr)) :
    p.max_range ∈ MAX_SIZE_CHOICES ∧
    INET_MIN_MTU_SIZE ≤ p.max_size ∧ p.max_size ≤ INET_MAX_MTU_SIZE ∧
    ((o 0 = 100 ∧ r = { initResults p.dest with msg := some (basicConnMsg p.dest) } ∧
        tr = [baselineEvent (probeArgsOf p) (o 0)]) ∨
     (o 0 ≠ 100 ∧
        tr = baselineEvent (probeArgsOf p) (o 0) ::
          (searchLoop (probeArgsOf p) p.max_size o 1 p.max_size p.max_range.toNat
            (initResults p.dest)).2 ∧
        (r = (searchLoop (probeArgsOf p) p.max_size o 1 p.max_size p.max_range.toNat
            (initResults p.dest)).1 ∨
         r = { (searchLoop (probeArgsOf p) p.max_size o 1 p.max_size p.max_range.toNat
            (initResults p.dest)).1 with
            failed := true,
            msg := some (pmtuTooSmallMsg p.dest
              (min_test_size p.max_size p.max_range) p.max_size p.max_range) }))) := by
  by_cases hr : p.max_range ∈ MAX_SIZE_CHOICES
  · by_cases hbv : p.max_size < INET_MIN_MTU_SIZE ∨ p.max_size > INET_MAX_MTU_SIZE
    · unfold main at h
      rw [if_pos hr, if_pos hbv] at h
      exact Except.noConfusion h
    · rw [main_eq_valid p o hr hbv] at h
      refine ⟨hr, by omega, by omega, ?_⟩
      by_cases hb0 : o 0 = 100
      · rw [if_pos hb0] at h
        obtain ⟨h1, h2⟩ := Prod.ext_iff.1 (Except.ok.inj h)
        exact Or.inl ⟨hb0, h1.symm, h2.symm⟩
      · rw [if_neg hb0] at h
        split_ifs at h with h0
        · obtain ⟨h1, h2⟩ := Prod.ext_iff.1 (Except.ok.inj h)
          exact Or.inr ⟨hb0, h2.symm, Or.inr h1.symm⟩
        · obtain ⟨h1, h2⟩ := Prod.ext_iff.1 (Except.ok.inj h)
          exact Or.inr ⟨hb0, h2.symm, Or.inl h1.symm⟩
  · unfold main at h
    rw [if_neg hr] at h
    exact Except.noConfusion h

/-- C6: every search-loop probe is issued at a packet size clamped into
`[68, max_size]`, and the payload handed to the probe executor is exactly
`packetSize - 28`. -/
theorem search_probe_size_clamped (p : Params) (o : Nat → Int) (r : RunResult)
    (tr : List ProbeEvent) (h : main p o = .ok (r, tr)) :
    ∀ e ∈ tr.drop 1, (68 : Int) ≤ e.packetSize ∧ e.packetSize ≤ p.max_size ∧
      e.cmd.size = e.packetSize - 28 := by
  obtain ⟨hr, hmin, hmax, hcase⟩ := main_ok_cases p o r tr h
  rcases hcase with ⟨_, _, htr⟩ | ⟨_, htr, _⟩
  · subst htr
    intro e he
    simp at he
  · subst htr
    intro e he
    simp only [List.drop_succ_cons, List.drop_zero] at he
    obtain ⟨hge, hle, hcmd⟩ := searchLoop_events (probeArgsOf p) p.max_size o hmin
      p.max_range.toNat 1 p.max_size (initResults p.dest) e he
    refine ⟨by simpa [INET_MIN_MTU_SIZE] using hge, hle, ?_⟩
    rw [hcmd]
    show e.packetSize - INET_AND_ICMP_HEADER_SIZE = e.packetSize - 28
    norm_num [INET_AND_ICMP_HEADER_SIZE, INET_HEADER_SIZE, ICMP_HEADER_SIZE]

/-- C10: the run is oblivious to the `df_bit`, `size` and `state` options —
changing them changes nothing in the outcome — and regardless of them the
baseline probe has DF unset while every search probe has DF set. -/
theorem result_independent_of_unused_params :
    (∀ (p : Params) (o : Nat → Int) (b : Bool) (sz : Option Int) (st : PState),
        main { p with df_bit := b, size := sz, state := st } o = main p o)
    ∧ (∀ (p : Params) (o : Nat → Int) (r : RunResult) (tr : List ProbeEvent),
        main p o = .ok (r, tr) →
          (∀ e ∈ tr.take 1, e.cmd.df_bit = false) ∧
          (∀ e ∈ tr.drop 1, e.cmd.df_bit = true)) := by
  constructor
  · intro p o b sz st
    rfl
  · intro p o r tr h
    obtain ⟨hr, hmin, hmax, hcase⟩ := main_ok_cases p o r tr h
    rcases hcase with ⟨_, _, htr⟩ | ⟨_, htr, _⟩
    · subst htr
      constructor
      · intro e he
        simp only [List.take_succ_cons, List.take_zero, List.mem_singleton] at he
        subst he
        rfl
      · intro e he
        simp at he
    · subst htr
      constructor
      · intro e he
        simp only [List.take_succ_cons, List.take_zero, List.mem_singleton] at he
        subst he
        rfl
      · intro e he
        simp only [List.drop_succ_cons, List.drop_zero] at he
        obtain ⟨_, _, hcmd⟩ := searchLoop_events (probeArgsOf p) p.max_size o hmin
          p.max_range.toNat 1 p.max_size (initResults p.dest) e he
        rw [hcmd]
        rfl

/-- C1 (amended): `inet_mtu` is written only by a probe with `loss < 100`
and only with the size just probed, so the final value is the packet size
of the LAST successful search probe (0 if none) — not necessarily the
largest successfully probed size. -/
theorem inet_mtu_eq_last_success (p : Params) (o : Nat → Int) (r : RunResult)
    (tr : List ProbeEvent) (h : main p o = .ok (r, tr)) :
    r.inet_mtu = lastSuccessSize (tr.drop 1) 0 := by
  obtain ⟨hr, hmin, hmax, hcase⟩ := main_ok_cases p o r tr h
  rcases hcase with ⟨_, hreq, htr⟩ | ⟨_, htr, hres⟩
  · subst htr
    subst hreq
    rfl
  · subst htr
    have hsl := searchLoop_inet (probeArgsOf p) p.max_size o p.max_range.toNat 1
      p.max_size (initResults p.dest)
    simp only [List.drop_succ_cons, List.drop_zero]
    rcases hres with hreq | hreq <;> subst hreq <;> simpa [initResults] using hsl

/-- The `results` dict built by `run_ping` (junos_pmtu.py lines 336-380):
the command sent, the packet-loss summary fields, and the raw `round-trip`
line found (its numeric breakdown is produced by the external `parse_rtt`
of `junos_ping` and is irrelevant to the search). -/
structure PingResults where
  commands : PingCommand
  rtt_line : Option String
  packet_loss : Int
  packets_rx : Int
  packets_tx : Int
deriving DecidableEq, Repr

/-- Modelled from the spec: `parse_rate` is imported from `junos_ping`,
which is not part of this repository snapshot.  Per the spec (section 3 and
section 4.1) it parses the summary line
"[tx] packets transmitted, [rx] packets received, [loss]% packet loss" and
returns the triple (loss, rx, tx); an absent or unparseable loss is treated
as 100, i.e. total failure. -/
def parse_rate : Option String → Int × Int × Int
  | none => (100, 0, 0)
  | some line =>
    let ws := line.splitOn " "
    let tx := ((ws.getD 0 "").toInt?).getD 0
    let rx := ((ws.getD 3 "").toInt?).getD 0
    let loss := (((ws.getD 6 "").takeWhile Char.isDigit).toInt?).getD 100
    (loss, rx, tx)

/-- The line scan of `run_ping` (junos_pmtu.py lines 362-367): walk the
output lines, remembering the last line starting with "round-trip" and the
last line starting with "<count> packets transmitted". -/
def scanSummary (count : Int) (lines : List String) :
    Option String × Option String :=
  lines.foldl
    (fun acc line =>
      (if line.startsWith "round-trip" then some line else acc.1,
       if line.startsWith (toString count ++ " packets transmitted") then some line
        else acc.2))
    (none, none)

/-- `run_ping` of junos_pmtu.py (lines 336-380).  The transport output is
given as its list of lines (the code obtains it from the connection and
splits on a newline, line 363). -/
def run_ping (a : ProbeArgs) (size : Int) (df_bit : Bool)
    (outputLines : List String) : PingResults :=
  let commands := mkCommand a size df_bit
  let scan := scanSummary a.count outputLines
  let pr := parse_rate scan.2
  { commands := commands, rtt_line := scan.1, packet_loss := pr.1,
    packets_rx := pr.2.1, packets_tx := pr.2.2 }

lemma scanSummary_snd_none (c : Int) :
    ∀ (lines : List String) (acc : Option String × Option String),
      acc.2 = none →
      (∀ l ∈ lines, ¬ l.startsWith (toString c ++ " packets transmitted")) →
      (lines.foldl
        (fun acc line =>
          (if line.startsWith "round-trip" then some line else acc.1,
           if line.startsWith (toString c ++ " packets transmitted") then some line
            else acc.2))
        acc).2 = none := by
  intro lines
  induction lines with
  | nil =>
    intro acc h2 _
    exact h2
  | cons l ls ih =>
    intro acc h2 hall
    simp only [List.foldl_cons]
    apply ih
    · simp only
      rw [if_neg (hall l (List.mem_cons_self l ls))]
      exact h2
    · intro x hx
      exact hall x (List.mem_cons_of_mem l hx)

/-- C8: when no output line starts with "<count> packets transmitted", the
probe outcome reports `packet_loss = 100`: malformed or missing transport
output never registers as a successful probe. -/
theorem missing_rate_line_loss_100 (a : ProbeArgs) (size : Int) (df_bit : Bool)
    (outputLines : List String)
    (h : ∀ l ∈ outputLines,
      ¬ l.startsWith (toString a.count ++ " packets transmitted")) :
    (run_ping a size df_bit outputLines).packet_loss = 100 := by
  have hs : (scanSummary a.count outputLines).2 = none :=
    scanSummary_snd_none a.count outputLines (none, none) rfl h
  show (parse_rate (scanSummary a.count outputLines).2).1 = 100
  rw [hs]
  rfl

/-- The running example of the module documentation: dest 192.68.1.1 with
the default count/rapid/max_size/max_range. -/
def exampleParams : Params :=
  { count := 5, dest := "192.68.1.1", df_bit := false, rapid := true,
    source := none, interface := none, ttl := none, size := none,
    interval := none, max_size := 1600, max_range := 512, state := .present }

/-- Every probe reports 0% loss. -/
def allPassOracle : Nat → Int := fun _ => 0

/-- Every probe reports 100% loss. -/
def deadOracle : Nat → Int := fun _ => 100

/-- The baseline passes, every search probe reports 100% loss. -/
def searchFailOracle : Nat → Int := fun i => if i = 0 then 0 else 100

/-- A run with `source` and `interface` specified. -/
def echoParams : Params :=
  { exampleParams with
      source := some "192.168.1.2", interface := some "ge-0/0/0.0" }

/-- `max_size = 77`, `max_range = 32`, and probe outcomes
pass, fail, pass, pass, fail, pass, fail. -/
def cexParams : Params :=
  { exampleParams with max_size := 77, max_range := 32 }

def cexOracle : Nat → Int
  | 0 => 0
  | 1 => 100
  | 2 => 0
  | 3 => 0
  | 4 => 100
  | 5 => 0
  | _ => 100

/-- The probe trace of the `cexParams` / `cexOracle` run: sizes
77 (fail), 68, 76 (pass), 77 (fail), 75 (pass), 76 (fail). -/
def cexTrace : List ProbeEvent :=
  [baselineEvent (probeArgsOf cexParams) 0,
   loopEvent (probeArgsOf cexParams) 77 100,
   loopEvent (probeArgsOf cexParams) 68 0,
   loopEvent (probeArgsOf cexParams) 76 0,
   loopEvent (probeArgsOf cexParams) 77 100,
   loopEvent (probeArgsOf cexParams) 75 0,
   loopEvent (probeArgsOf cexParams) 76 100]

lemma main_example_eval :
    main exampleParams allPassOracle = .ok
      ({ changed := false, failed := false, inet_mtu := 1600, dest := "192.68.1.1",
         msg := none, source := none, interface := none },
       [baselineEvent (probeArgsOf exampleParams) 0,
        loopEvent (probeArgsOf exampleParams) 1600 0]) := by
  rw [main_eq_valid exampleParams allPassOracle (by decide) (by decide)]
  rw [if_neg (by decide)]
  rw [searchLoop_eq]
  rw [if_pos (show allPassOracle 1 < 100 ∧
    clampTest exampleParams.max_size exampleParams.max_size = exampleParams.max_size
    by decide)]
  rw [if_neg (by decide)]
  rfl

lemma main_echo_eval :
    main echoParams allPassOracle = .ok
      ({ changed := false, failed := false, inet_mtu := 1600, dest := "192.68.1.1",
         msg := none, source := none, interface := none },
       [baselineEvent (probeArgsOf echoParams) 0,
        loopEvent (probeArgsOf echoParams) 1600 0]) := by
  rw [main_eq_valid echoParams allPassOracle (by decide) (by decide)]
  rw [if_neg (by decide)]
  rw [searchLoop_eq]
  rw [if_pos (show allPassOracle 1 < 100 ∧
    clampTest echoParams.max_size echoParams.max_size = echoParams.max_size
    by decide)]
  rw [if_neg (by decide)]
  rfl

lemma main_cex_eval :
    main cexParams cexOracle = .ok
      ({ changed := false, failed := false, inet_mtu := 75, dest := "192.68.1.1",
         msg := none, source := none, interface := none }, cexTrace) := by
  rw [main_eq_valid cexParams cexOracle (by decide) (by decide)]
  rw [if_neg (by decide)]
  rw [searchLoop_eq]
  simp [cexOracle, clampTest, halveStep, initResults, cexParams, exampleParams,
    probeArgsOf, INET_MIN_MTU_SIZE, INET_AND_ICMP_HEADER_SIZE, INET_HEADER_SIZE,
    ICMP_HEADER_SIZE]
  rw [searchLoop_eq]
  simp [cexOracle, clampTest, halveStep, initResults, cexParams, exampleParams,
    probeArgsOf, INET_MIN_MTU_SIZE, INET_AND_ICMP_HEADER_SIZE, INET_HEADER_SIZE,
    ICMP_HEADER_SIZE]
  rw [searchLoop_eq]
  simp [cexOracle, clampTest, halveStep, initResults, cexParams, exampleParams,
    probeArgsOf, INET_MIN_MTU_SIZE, INET_AND_ICMP_HEADER_SIZE, INET_HEADER_SIZE,
    ICMP_HEADER_SIZE]
  rw [searchLoop_eq]
  simp [cexOracle, clampTest, halveStep, initResults, cexParams, exampleParams,
    probeArgsOf, INET_MIN_MTU_SIZE, INET_AND_ICMP_HEADER_SIZE, INET_HEADER_SIZE,
    ICMP_HEADER_SIZE]
  rw [searchLoop_eq]
  simp [cexOracle, clampTest, halveStep, initResults, cexParams, exampleParams,
    probeArgsOf, INET_MIN_MTU_SIZE, INET_AND_ICMP_HEADER_SIZE, INET_HEADER_SIZE,
    ICMP_HEADER_SIZE]
  rw [searchLoop_eq]
  simp [cexOracle, clampTest, halveStep, initResults, cexParams, exampleParams,
    probeArgsOf, INET_MIN_MTU_SIZE, INET_AND_ICMP_HEADER_SIZE, INET_HEADER_SIZE,
    ICMP_HEADER_SIZE]
  rfl

/-- C1 (counterexample): with `max_size = 77`, `max_range = 32` and outcomes
fail, pass, pass, fail, pass, fail, the search probe at packet size 76
reports loss 0 < 100, yet the run ends with `inet_mtu = 75 < 76`: the final
`inet_mtu` is not monotone in the successfully probed sizes. -/
theorem inet_mtu_not_monotone_cex :
    ∃ r tr, main cexParams cexOracle = .ok (r, tr) ∧
      (∃ e ∈ tr.drop 1, e.loss < 100 ∧ e.packetSize = 76) ∧
      r.inet_mtu = 75 ∧ ¬ (76 : Int) ≤ r.inet_mtu := by
  refine ⟨_, _, main_cex_eval, ?_, rfl, by decide⟩
  exact ⟨loopEvent (probeArgsOf cexParams) 76 0, by decide, by decide, rfl⟩

/-- C9 (code bug): the returned results never include the `source` /
`interface` values: even on a fully successful run with both options
specified, the result carries only `dest`, contradicting the module's
RETURN documentation ("returned: when the I(source) option was specified",
junos_pmtu.py lines 201-219). -/
theorem source_not_echoed :
    echoParams.source = some "192.168.1.2" ∧
    echoParams.interface = some "ge-0/0/0.0" ∧
    ∃ r tr, main echoParams allPassOracle = .ok (r, tr) ∧
      r.failed = false ∧ r.inet_mtu = 1600 ∧ r.dest = "192.68.1.1" ∧
      r.source = none ∧ r.interface = none :=
  ⟨rfl, rfl, _, _, main_echo_eval, rfl, rfl, rfl, rfl, rfl⟩

/-- Witness for C1 (amended), instantiated at the all-success example run. -/
theorem inet_mtu_eq_last_success_witness :
    ({ changed := false, failed := false, inet_mtu := 1600, dest := "192.68.1.1",
       msg := none, source := none, interface := none } : RunResult).inet_mtu =
      lastSuccessSize (([baselineEvent (probeArgsOf exampleParams) 0,
        loopEvent (probeArgsOf exampleParams) 1600 0]).drop 1) 0 :=
  inet_mtu_eq_last_success exampleParams allPassOracle _ _ main_example_eval

/-- Witness for C2: the all-success run at the defaults stops after the
baseline and one search probe with `inet_mtu = 1600`. -/
theorem all_success_returns_max_witness :
    main exampleParams allPassOracle = .ok
      ({ changed := false, failed := false, inet_mtu := exampleParams.max_size,
         dest := exampleParams.dest, msg := none, source := none, interface := none },
       [baselineEvent (probeArgsOf exampleParams) (allPassOracle 0),
        loopEvent (probeArgsOf exampleParams) exampleParams.max_size (allPassOracle 1)]) :=
  all_success_returns_max exampleParams allPassOracle (by decide) (by decide)
    (by decide) (by decide) (fun i _ => show (0 : Int) < 100 by norm_num)

/-- Witness for C3 at `max_range = 512 = 2^9`: at most 11 probes. -/
theorem probe_count_bound_witness :
    ∃ r tr, main exampleParams allPassOracle = .ok (r, tr) ∧ tr.length ≤ 9 + 2 :=
  probe_count_bound exampleParams allPassOracle 9 (by decide) (by decide)
    (by decide) (by decide) (by decide)

/-- Witness for C4: a dead destination yields the baseline-failure result
after the single 40-byte DF-unset probe. -/
theorem baseline_failure_fails_fast_witness :
    main exampleParams deadOracle = .ok
      ({ changed := false, failed := true, inet_mtu := 0, dest := exampleParams.dest,
         msg := some (basicConnMsg exampleParams.dest), source := none,
         interface := none },
       [{ cmd := mkCommand (probeArgsOf exampleParams) 40 false, packetSize := 68,
          loss := deadOracle 0 }]) :=
  baseline_failure_fails_fast exampleParams deadOracle (by decide) (by decide)
    (by decide) rfl

/-- Witness for C5: baseline passes, all search probes lost, at the
defaults (`min_test_size = 1089`). -/
theorem all_loss_reports_too_small_witness :
    (∃ tr, main exampleParams searchFailOracle = .ok
      ({ changed := false, failed := true, inet_mtu := 0, dest := exampleParams.dest,
         msg := some (pmtuTooSmallMsg exampleParams.dest
           (min_test_size exampleParams.max_size exampleParams.max_range)
           exampleParams.max_size exampleParams.max_range),
         source := none, interface := none }, tr))
    ∧ min_test_size exampleParams.max_size exampleParams.max_range =
        max 68 (exampleParams.max_size - exampleParams.max_range + 1)
    ∧ ∃ pre post,
        pmtuTooSmallMsg exampleParams.dest
            (min_test_size exampleParams.max_size exampleParams.max_range)
            exampleParams.max_size exampleParams.max_range =
          pre ++ ("less than the minimum tested size" ++ post) :=
  all_loss_reports_too_small exampleParams searchFailOracle (by decide) (by decide)
    (by decide) (by decide)
    (fun i hi => by
      show (if i = 0 then (0 : Int) else 100) = 100
      rw [if_neg (by omega)])

/-- Witness for C6 at the all-success example run, instantiated at its
search probe. -/
theorem search_probe_size_clamped_witness :
    (68 : Int) ≤ (loopEvent (probeArgsOf exampleParams) 1600 0).packetSize ∧
    (loopEvent (probeArgsOf exampleParams) 1600 0).packetSize ≤
      exampleParams.max_size ∧
    (loopEvent (probeArgsOf exampleParams) 1600 0).cmd.size =
      (loopEvent (probeArgsOf exampleParams) 1600 0).packetSize - 28 :=
  search_probe_size_clamped exampleParams allPassOracle _ _ main_example_eval
    (loopEvent (probeArgsOf exampleParams) 1600 0) (by decide)

/-- `max_range = 300` is rejected by the argument-spec choices. -/
def badRangeParams : Params :=
  { exampleParams with max_range := 300 }

/-- Witness for C7: with `max_range = 300` the configuration error is the
same whatever the oracle reports, i.e. it precedes all probing. -/
theorem config_validation_eager_witness :
    main badRangeParams deadOracle = .error .badMaxRange :=
  (config_validation_eager badRangeParams allPassOracle).2.2 .badMaxRange
    (by
      unfold main
      rw [if_neg (by decide)])
    deadOracle

set_option maxRecDepth 10000 in
/-- Witness for C8: transport output with no loss-summary line. -/
theorem missing_rate_line_loss_100_witness :
    (run_ping (probeArgsOf exampleParams) 1572 true
      ["request timeout", "no summary here"]).packet_loss = 100 :=
  missing_rate_line_loss_100 (probeArgsOf exampleParams) 1572 true
    ["request timeout", "no summary here"] (by decide)

/-- Witness for C10 (DF-bit part) at the all-success example run. -/
theorem result_independent_of_unused_params_witness :
    (∀ e ∈ ([baselineEvent (probeArgsOf exampleParams) 0,
        loopEvent (probeArgsOf exampleParams) 1600 0] : List ProbeEvent).take 1,
      e.cmd.df_bit = false) ∧
    (∀ e ∈ ([baselineEvent (probeArgsOf exampleParams) 0,
        loopEvent (probeArgsOf exampleParams) 1600 0] : List ProbeEvent).drop 1,
      e.cmd.df_bit = true) :=
  result_independent_of_unused_params.2 exampleParams allPassOracle _ _
    main_example_eval

end JunosPmtu
